import Mathlib

/-!
Verification development for the credential-lifecycle and token-verification
core of an OAuth2 client library (JWT verifier, token refresh manager,
certificate cache).  The implementation module of this repository is not
present in the source tree (only its test suite is), so every operation is
modelled from the specification document, faithful to its words, and
cross-checked against the behaviour asserted by the test suite
(test/test.oauth2.ts).
-/

namespace OAuth2

/-- Default bound on how long a token may claim to live, in seconds
(spec section 6: maxTokenLifetimeSeconds, default 86400). -/
def MAX_TOKEN_LIFETIME_SECS : Int := 86400

/-- Clock-skew tolerance in seconds (spec section 6: clockSkewSeconds,
default 300). -/
def CLOCK_SKEW_SECS : Int := 300

/-- Decoded JWT envelope (header).  Spec section 3: must contain at least
kid and alg. -/
structure Envelope where
  kid : String
  alg : String
deriving DecidableEq, Repr

/-- Decoded JWT payload: the claims this core inspects (spec section 9:
iss, aud, iat, exp, sub), all optional since the payload is arbitrary JSON. -/
structure Payload where
  iss : Option String
  aud : Option String
  iat : Option Int
  exp : Option Int
  sub : Option String
deriving DecidableEq, Repr

/-- The audience argument of the verifier: a single string or a list
(spec section 4.2: audience, string or list of strings). -/
inductive Audience where
  | single (s : String)
  | several (l : List String)
deriving DecidableEq, Repr

/-- The error kinds of the JWT verifier (spec section 7). -/
inductive VerifyError where
  | malformedToken (msg : String)
  | unknownKey
  | invalidSignature
  | missingClaim (claim : String)
  | tokenNotYetValid
  | tokenExpired
  | expiryTooFarInFuture
  | invalidIssuer
  | wrongAudience
deriving DecidableEq, Repr

/-- Successful verification result (spec section 3, VerificationResult):
the raw envelope segment together with the decoded envelope and payload. -/
structure VerificationResult where
  rawEnvelope : String
  envelope : Envelope
  payload : Payload
deriving DecidableEq, Repr

/-- Splitting a list of characters on the dot character, mirroring the
JavaScript String.split behaviour used by step 1 of the verifier:
"a.b" gives two pieces, "a..b" gives three (middle one empty). -/
def splitOnDot : List Char → List (List Char)
  | [] => [[]]
  | c :: rest =>
    if c = '.' then [] :: splitOnDot rest
    else
      match splitOnDot rest with
      | [] => [[c]]
      | seg :: segs => (c :: seg) :: segs

/-- The segments of a token string, split on the dot separator. -/
def splitSegments (token : String) : List String :=
  (splitOnDot token.data).map (fun l => String.mk l)

/-- Step 1 of the verifier as a predicate: the token splits on the dot into
exactly 3 non-empty segments. -/
def wellSegmented (token : String) : Bool :=
  match splitSegments token with
  | [a, b, c] => !(a.isEmpty || b.isEmpty || c.isEmpty)
  | _ => false

/-- Lookup of a public key by key id in the certificate mapping
(spec section 4.2 step 4). -/
def lookupCert (certs : List (String × String)) (kid : String) : Option String :=
  (certs.find? (fun p => p.1 == kid)).map (fun p => p.2)

/-- Step 10 of the verifier: if an issuer list is supplied, the payload
issuer must be a member of it. -/
def issuerOk (issuers : Option (List String)) (p : Payload) : Bool :=
  match issuers with
  | none => true
  | some l =>
    match p.iss with
    | none => false
    | some i => l.contains i

/-- Step 11 of the verifier: the payload audience must equal the required
audience, or be a member of it when the required audience is a list. -/
def audienceOk (audience : Audience) (p : Payload) : Bool :=
  match p.aud with
  | none => false
  | some a =>
    match audience with
    | .single s => a == s
    | .several l => l.contains a

/-- Modelled from the spec: `verifySignedJwtWithCerts` (spec section 4.2),
whose implementation module is absent from the source tree.  The external
collaborators are passed as functions: `parseEnvelope` and `parsePayload`
model base64url-decoding plus JSON-parsing of a segment, and `verifySig`
models the RSA signature check of the signed content against a public key.
The algorithm follows the spec's strict order: (1) segment split,
(2) envelope parse, (3) payload parse, (4) key lookup by kid,
(5) signature verification over segment0 ++ "." ++ segment1,
(6) exp present, (7) iat present, (8) clock-skew time checks,
(9) lifetime bound exp - iat vs maxExpiry, (10) issuer, (11) audience,
(12) success. -/
def verifySignedJwtWithCerts
    (parseEnvelope : String → Option Envelope)
    (parsePayload : String → Option Payload)
    (verifySig : String → String → String → Bool)
    (now : Int)
    (token : String) (certs : List (String × String))
    (audience : Audience) (issuers : Option (List String))
    (maxExpiry : Int) : Except VerifyError VerificationResult :=
  match splitSegments token with
  | [s0, s1, s2] =>
    if s0.isEmpty || s1.isEmpty || s2.isEmpty then
      .error (.malformedToken "Wrong number of segments")
    else
      match parseEnvelope s0 with
      | none => .error (.malformedToken "Cannot parse token envelope")
      | some env =>
        match parsePayload s1 with
        | none => .error (.malformedToken "Cannot parse token payload")
        | some p =>
          match lookupCert certs env.kid with
          | none => .error .unknownKey
          | some pem =>
            if !(verifySig pem (s0 ++ "." ++ s1) s2) then
              .error .invalidSignature
            else
              match p.exp with
              | none => .error (.missingClaim "exp")
              | some exp =>
                match p.iat with
                | none => .error (.missingClaim "iat")
                | some iat =>
                  if iat - CLOCK_SKEW_SECS > now then
                    .error .tokenNotYetValid
                  else if exp + CLOCK_SKEW_SECS < now then
                    .error .tokenExpired
                  else if exp - iat > maxExpiry then
                    .error .expiryTooFarInFuture
                  else if !(issuerOk issuers p) then
                    .error .invalidIssuer
                  else if !(audienceOk audience p) then
                    .error .wrongAudience
                  else
                    .ok ⟨s0, env, p⟩
  | _ => .error (.malformedToken "Wrong number of segments")

/-- Mutable credential record (spec section 3, Credentials).
`expiry_date` is in milliseconds since epoch. -/
structure Credentials where
  access_token : Option String
  refresh_token : Option String
  id_token : Option String
  expiry_date : Option Int
  scope : Option String
deriving DecidableEq, Repr

/-- The empty credential record (spec section 3: cleared to an empty record
on revocation). -/
def emptyCredentials : Credentials := ⟨none, none, none, none, none⟩

/-- Modelled from the spec: staleness of the cached token (spec section 4.3
step 2): stale iff `expiry_date` is present and
`now >= expiry_date - eagerRefreshThresholdMillis`; an absent `expiry_date`
means the token is assumed fresh. -/
def isTokenExpiring (creds : Credentials) (now thresh : Int) : Bool :=
  match creds.expiry_date with
  | none => false
  | some d => decide (d - thresh ≤ now)

/-- JSON body of a successful token-endpoint response (spec section 6). -/
structure TokenResponseBody where
  access_token : String
  refresh_token : Option String
  expires_in : Int
  id_token : Option String
deriving DecidableEq, Repr

/-- A token-endpoint response: HTTP status plus, when the body parses as a
token response, the parsed body (`none` models a malformed body). -/
structure EndpointResponse where
  status : Nat
  body : Option TokenResponseBody
deriving DecidableEq, Repr

/-- Errors of the refresh sub-protocol (spec section 4.3, refresh). -/
inductive RefreshError where
  | noRefreshToken
  | refreshFailed
deriving DecidableEq, Repr

/-- Result of a refresh call: the operation's outcome together with the
credential record after the call. -/
structure RefreshOutcome where
  result : Except RefreshError Unit
  creds : Credentials
deriving Repr

/-- Modelled from the spec: `refresh()` (spec section 4.3), whose
implementation module is absent from the source tree.  It exchanges the
refresh token at the external token endpoint (passed as a function from
refresh token to response).  It fails with NoRefreshToken when none is set,
fails with RefreshFailed on a non-2xx or malformed response leaving the
prior record unmodified, and on success replaces the record wholesale: new
access token, new expiry `now + expires_in * 1000`, and the new refresh
token when returned, the prior one being preserved when the response omits
it. -/
def refresh (creds : Credentials) (endpoint : String → EndpointResponse)
    (now : Int) : RefreshOutcome :=
  match creds.refresh_token with
  | none => ⟨.error .noRefreshToken, creds⟩
  | some rt =>
    if 200 ≤ (endpoint rt).status ∧ (endpoint rt).status < 300 then
      match (endpoint rt).body with
      | none => ⟨.error .refreshFailed, creds⟩
      | some b =>
        ⟨.ok (),
          { access_token := some b.access_token
            refresh_token :=
              match b.refresh_token with
              | some nrt => some nrt
              | none => creds.refresh_token
            id_token := b.id_token
            expiry_date := some (now + b.expires_in * 1000)
            scope := creds.scope }⟩
    else ⟨.error .refreshFailed, creds⟩

/-- One observable network call made while serving an authorized request. -/
inductive NetCall where
  | refreshCall
  | apiCall (accessToken : String)
deriving DecidableEq, Repr

/-- Errors of an authorized request (spec sections 4.3 and 7). -/
inductive RequestError where
  | noCredentials
  | refreshError (e : RefreshError)
deriving DecidableEq, Repr

/-- Outcome of an authorized request: the final result (the HTTP status of
the last attempt, or an error), the credential record after the call, and
the ordered trace of network calls issued. -/
structure RequestOutcome where
  result : Except RequestError Nat
  creds : Credentials
  calls : List NetCall
deriving Repr

/-- Modelled from the spec: steps 4-6 of `authorizedRequest` (spec section
4.3): attach the current access token and send; on a 401 or 403 first
response, when the body is not a non-replayable stream and a refresh token
is available, perform one refresh and resend exactly once, surfacing the
second response unmodified; requests with a streaming body are never
retried.  The transport is a function from attempt index to HTTP status. -/
def sendRequest (creds : Credentials) (now : Int)
    (endpoint : String → EndpointResponse) (transport : Nat → Nat)
    (isStream : Bool) : RequestOutcome :=
  if (transport 0 == 401 || transport 0 == 403) && !isStream
      && creds.refresh_token.isSome then
    match refresh creds endpoint now with
    | ⟨.error e, creds2⟩ =>
      ⟨.error (.refreshError e), creds2,
        [.apiCall (creds.access_token.getD ""), .refreshCall]⟩
    | ⟨.ok _, creds2⟩ =>
      ⟨.ok (transport 1), creds2,
        [.apiCall (creds.access_token.getD ""), .refreshCall,
          .apiCall (creds2.access_token.getD "")]⟩
  else
    ⟨.ok (transport 0), creds, [.apiCall (creds.access_token.getD "")]⟩

/-- Modelled from the spec: `authorizedRequest` / `request` (spec section
4.3), whose implementation module is absent from the source tree.  Step 1:
with neither an access token nor a refresh token, fail NoCredentials with
no network call.  Steps 2-3: when the access token is missing or stale
(`isTokenExpiring`) and a refresh token is available, refresh before
sending (the test suite shows a missing access token also triggers this
proactive refresh).  Steps 4-6 are `sendRequest`.  API-key authentication
is out of this model's scope. -/
def request (creds : Credentials) (now thresh : Int)
    (endpoint : String → EndpointResponse) (transport : Nat → Nat)
    (isStream : Bool) : RequestOutcome :=
  if creds.access_token.isNone && creds.refresh_token.isNone then
    ⟨.error .noCredentials, creds, []⟩
  else if (creds.access_token.isNone || isTokenExpiring creds now thresh)
      && creds.refresh_token.isSome then
    match refresh creds endpoint now with
    | ⟨.error e, creds2⟩ => ⟨.error (.refreshError e), creds2, [.refreshCall]⟩
    | ⟨.ok _, creds2⟩ =>
      match sendRequest creds2 now endpoint transport isStream with
      | ⟨res, creds3, calls⟩ => ⟨res, creds3, .refreshCall :: calls⟩
  else
    sendRequest creds now endpoint transport isStream

/-- Error of the revoke operation (spec section 7). -/
inductive RevokeError where
  | noTokenToRevoke
deriving DecidableEq, Repr

/-- Outcome of `revokeCredentials`: the result, the credential record after
the call, and the list of tokens sent to the revoke endpoint (one entry per
network call). -/
structure RevokeOutcome where
  result : Except RevokeError Nat
  creds : Credentials
  networkCalls : List String
deriving Repr

/-- Modelled from the spec: `revokeCredentials` / `revoke()` (spec section
4.3), whose implementation module is absent from the source tree.  With no
access token present it fails NoTokenToRevoke and makes no network call;
otherwise it calls the external revoke endpoint with the access token.  In
both cases the credential record is cleared to the empty record: the test
suite asserts that the record equals the empty record after the error path
as well. -/
def revokeCredentials (creds : Credentials)
    (revokeEndpoint : String → Nat) : RevokeOutcome :=
  match creds.access_token with
  | some t => ⟨.ok (revokeEndpoint t), emptyCredentials, [t]⟩
  | none => ⟨.error .noTokenToRevoke, emptyCredentials, []⟩

/-- Cached certificate set (spec section 3, CertificateSet): key-id to key
material mapping plus a validUntil timestamp; `none` means no usable cache
(absent or immediately stale). -/
structure CertificateSet where
  certs : List (String × String)
  validUntil : Option Int
deriving DecidableEq, Repr

/-- The initial, empty certificate cache (spec section 3: created empty). -/
def emptyCertificateSet : CertificateSet := ⟨[], none⟩

/-- A certificate-endpoint response: the key mapping in the body plus the
max-age directive of the Cache-Control header when present. -/
structure CertFetchResponse where
  body : List (String × String)
  maxAge : Option Int
deriving DecidableEq, Repr

/-- Outcome of `getCertificates`: the returned mapping, the cache state
after the call, and the number of network fetches issued (0 or 1). -/
structure GetCertsOutcome where
  certs : List (String × String)
  cache : CertificateSet
  fetches : Nat
deriving DecidableEq, Repr

/-- Modelled from the spec: `getCertificates` (spec section 4.1), whose
implementation module is absent from the source tree.  If the cache is
absent or its validUntil has passed, perform one network fetch (the fetch
is a function of the call time), store the body, and set validUntil to the
current time plus the response's max-age, or to no-cache when the max-age
directive is absent (refetch every call); otherwise return the cached set
with no network call. -/
def getCertificates (cache : CertificateSet) (now : Int)
    (fetch : Int → CertFetchResponse) : GetCertsOutcome :=
  match cache.validUntil with
  | some vu =>
    if now < vu then ⟨cache.certs, cache, 0⟩
    else
      ⟨(fetch now).body,
        ⟨(fetch now).body, (fetch now).maxAge.map (fun m => now + m)⟩, 1⟩
  | none =>
    ⟨(fetch now).body,
      ⟨(fetch now).body, (fetch now).maxAge.map (fun m => now + m)⟩, 1⟩

/-! Concrete sample collaborators, used to evaluate the model on concrete
inputs in the witness theorems below. -/

/-- A concrete envelope for concrete evaluations. -/
def sampleEnvelope : Envelope := ⟨"keyid", "RS256"⟩

/-- A concrete payload with the given iat and exp, for concrete
evaluations. -/
def samplePayload (iat exp : Int) : Payload :=
  ⟨some "testissuer", some "testaudience", some iat, some exp, some "123456789"⟩

/-- A concrete envelope-parsing collaborator: segment "env" decodes to
`sampleEnvelope`, everything else fails to parse. -/
def sampleParseEnvelope : String → Option Envelope :=
  fun s => if s = "env" then some sampleEnvelope else none

/-- A concrete payload-parsing collaborator: segment "pay" decodes to
`samplePayload iat exp`, everything else fails to parse. -/
def sampleParsePayload (iat exp : Int) : String → Option Payload :=
  fun s => if s = "pay" then some (samplePayload iat exp) else none

/-- Helper: with a structurally valid token, parsed envelope and payload, a
known key, a valid signature, and both time claims present, the verifier
reduces to the claim checks of steps 8-11. -/
theorem verify_claim_phase
    (parseEnvelope : String → Option Envelope)
    (parsePayload : String → Option Payload)
    (verifySig : String → String → String → Bool) (now : Int) (token : String)
    (certs : List (String × String)) (audience : Audience)
    (issuers : Option (List String)) (maxExpiry : Int)
    (s0 s1 s2 pem : String) (env : Envelope) (p : Payload) (e i : Int)
    (hsplit : splitSegments token = [s0, s1, s2])
    (h0 : s0.isEmpty = false) (h1 : s1.isEmpty = false) (h2 : s2.isEmpty = false)
    (henv : parseEnvelope s0 = some env) (hp : parsePayload s1 = some p)
    (hkey : lookupCert certs env.kid = some pem)
    (hsig : verifySig pem (s0 ++ "." ++ s1) s2 = true)
    (hexp : p.exp = some e) (hiat : p.iat = some i) :
    verifySignedJwtWithCerts parseEnvelope parsePayload verifySig now token
        certs audience issuers maxExpiry
      = if i - CLOCK_SKEW_SECS > now then .error .tokenNotYetValid
        else if e + CLOCK_SKEW_SECS < now then .error .tokenExpired
        else if e - i > maxExpiry then .error .expiryTooFarInFuture
        else if !(issuerOk issuers p) then .error .invalidIssuer
        else if !(audienceOk audience p) then .error .wrongAudience
        else .ok ⟨s0, env, p⟩ := by
  unfold verifySignedJwtWithCerts
  rw [hsplit]
  simp [h0, h1, h2, henv, hp, hkey, hsig, hexp, hiat]

/-- C1: for every token splitting into three non-empty segments whose
envelope and payload parse but whose envelope kid is not a key of the
supplied certificate set, `verifySignedJwtWithCerts` fails with UnknownKey
and never with InvalidSignature; the conclusion holds for every signature
verifier, so no signature check is attempted with an absent key. -/
theorem c1_unknown_key_never_invalid_signature
    (parseEnvelope : String → Option Envelope)
    (parsePayload : String → Option Payload)
    (verifySig : String → String → String → Bool) (now : Int) (token : String)
    (certs : List (String × String)) (audience : Audience)
    (issuers : Option (List String)) (maxExpiry : Int)
    (s0 s1 s2 : String) (env : Envelope) (p : Payload)
    (hsplit : splitSegments token = [s0, s1, s2])
    (h0 : s0.isEmpty = false) (h1 : s1.isEmpty = false) (h2 : s2.isEmpty = false)
    (henv : parseEnvelope s0 = some env) (hp : parsePayload s1 = some p)
    (hkey : lookupCert certs env.kid = none) :
    verifySignedJwtWithCerts parseEnvelope parsePayload verifySig now token
        certs audience issuers maxExpiry = .error .unknownKey
      ∧ verifySignedJwtWithCerts parseEnvelope parsePayload verifySig now token
          certs audience issuers maxExpiry ≠ .error .invalidSignature := by
  have h : verifySignedJwtWithCerts parseEnvelope parsePayload verifySig now
      token certs audience issuers maxExpiry = .error .unknownKey := by
    unfold verifySignedJwtWithCerts
    rw [hsplit]
    simp [h0, h1, h2, henv, hp, hkey]
  exact ⟨h, by rw [h]; simp⟩

/-- Witness for C1: a concrete three-segment token whose kid is absent from
the (empty) certificate set is rejected with UnknownKey, for a signature
verifier that would accept anything. -/
theorem c1_unknown_key_never_invalid_signature_witness :
    verifySignedJwtWithCerts sampleParseEnvelope (sampleParsePayload 0 100)
        (fun _ _ _ => true) 50 "env.pay.sig" [] (.single "testaudience") none
        86400 = .error .unknownKey
      ∧ verifySignedJwtWithCerts sampleParseEnvelope (sampleParsePayload 0 100)
          (fun _ _ _ => true) 50 "env.pay.sig" [] (.single "testaudience") none
          86400 ≠ .error .invalidSignature :=
  c1_unknown_key_never_invalid_signature sampleParseEnvelope
    (sampleParsePayload 0 100) (fun _ _ _ => true) 50 "env.pay.sig" []
    (.single "testaudience") none 86400 "env" "pay" "sig" sampleEnvelope
    (samplePayload 0 100) (by decide) (by decide) (by decide) (by decide)
    rfl rfl rfl

/-- C2 (counterexample): the claim says a token with
exp - iat > maxExpirySeconds fails with ExpiryTooFarInFuture regardless of
the current time.  At now = 1000000000 a fully valid token with iat = 0 and
exp = 200000 (lifetime 200000 > 86400) is rejected with TokenExpired
instead, because the clock-skew time checks of step 8 run before the
lifetime check of step 9. -/
theorem c2_expiry_bound_counterexample :
    verifySignedJwtWithCerts sampleParseEnvelope (sampleParsePayload 0 200000)
        (fun _ _ _ => true) 1000000000 "env.pay.sig" [("keyid", "PEM")]
        (.single "testaudience") none 86400 = .error .tokenExpired
      ∧ (200000 : Int) - 0 > 86400
      ∧ (Except.error VerifyError.tokenExpired :
          Except VerifyError VerificationResult)
          ≠ .error .expiryTooFarInFuture :=
  ⟨rfl, by decide, by simp⟩

/-- C2 (amended): for every well-formed, correctly signed token with exp
and iat present that passes the clock-skew time checks
(iat - skew ≤ now ≤ exp + skew), if exp - iat > maxExpirySeconds then
verification fails with ExpiryTooFarInFuture even when issuer and audience
are arbitrary, and if exp - iat ≤ maxExpirySeconds the lifetime check
passes: the result is never ExpiryTooFarInFuture. -/
theorem c2_expiry_bound_amended
    (parseEnvelope : String → Option Envelope)
    (parsePayload : String → Option Payload)
    (verifySig : String → String → String → Bool) (now : Int) (token : String)
    (certs : List (String × String)) (audience : Audience)
    (issuers : Option (List String)) (maxExpiry : Int)
    (s0 s1 s2 pem : String) (env : Envelope) (p : Payload) (e i : Int)
    (hsplit : splitSegments token = [s0, s1, s2])
    (h0 : s0.isEmpty = false) (h1 : s1.isEmpty = false) (h2 : s2.isEmpty = false)
    (henv : parseEnvelope s0 = some env) (hp : parsePayload s1 = some p)
    (hkey : lookupCert certs env.kid = some pem)
    (hsig : verifySig pem (s0 ++ "." ++ s1) s2 = true)
    (hexp : p.exp = some e) (hiat : p.iat = some i)
    (hearly : i - CLOCK_SKEW_SECS ≤ now) (hlate : now ≤ e + CLOCK_SKEW_SECS) :
    (e - i > maxExpiry →
      verifySignedJwtWithCerts parseEnvelope parsePayload verifySig now token
        certs audience issuers maxExpiry = .error .expiryTooFarInFuture)
    ∧ (e - i ≤ maxExpiry →
      verifySignedJwtWithCerts parseEnvelope parsePayload verifySig now token
        certs audience issuers maxExpiry ≠ .error .expiryTooFarInFuture) := by
  rw [verify_claim_phase parseEnvelope parsePayload verifySig now token certs
      audience issuers maxExpiry s0 s1 s2 pem env p e i hsplit h0 h1 h2 henv
      hp hkey hsig hexp hiat]
  rw [if_neg (by omega), if_neg (by omega)]
  constructor
  · intro hgt
    rw [if_pos hgt]
  · intro hle
    rw [if_neg (by omega)]
    cases hio : issuerOk issuers p <;> cases hao : audienceOk audience p <;>
      simp

/-- Witness for C2 (amended): at now = 50, a valid token with iat = 0 and
exp = 200000 (inside the skew window, lifetime 200000 > 86400) is rejected
with ExpiryTooFarInFuture. -/
theorem c2_expiry_bound_amended_witness :
    verifySignedJwtWithCerts sampleParseEnvelope (sampleParsePayload 0 200000)
        (fun _ _ _ => true) 50 "env.pay.sig" [("keyid", "PEM")]
        (.single "testaudience") none 86400 = .error .expiryTooFarInFuture :=
  (c2_expiry_bound_amended sampleParseEnvelope (sampleParsePayload 0 200000)
    (fun _ _ _ => true) 50 "env.pay.sig" [("keyid", "PEM")]
    (.single "testaudience") none 86400 "env" "pay" "sig" "PEM" sampleEnvelope
    (samplePayload 0 200000) 200000 0 (by decide) (by decide) (by decide)
    (by decide) rfl rfl rfl rfl rfl rfl (by decide) (by decide)).1 (by decide)

/-- C3 (counterexample): the claim says every token with exp + skew < now
is rejected with TokenExpired.  At now = 10000 a token with iat = 11000 and
exp = 9000 has exp + skew = 9300 < 10000, yet it is rejected with
TokenNotYetValid, because the too-early check runs first. -/
theorem c3_skew_window_counterexample :
    verifySignedJwtWithCerts sampleParseEnvelope (sampleParsePayload 11000 9000)
        (fun _ _ _ => true) 10000 "env.pay.sig" [("keyid", "PEM")]
        (.single "testaudience") none 86400 = .error .tokenNotYetValid
      ∧ (9000 : Int) + CLOCK_SKEW_SECS < 10000
      ∧ (Except.error VerifyError.tokenNotYetValid :
          Except VerifyError VerificationResult) ≠ .error .tokenExpired :=
  ⟨rfl, by decide, by simp⟩

/-- C3 (amended): for every well-formed, correctly signed token with exp
and iat present, with skew = 300: if iat - skew > now the token is rejected
with TokenNotYetValid; if iat - skew ≤ now and exp + skew < now it is
rejected with TokenExpired (the too-early check runs first); and if iat and
exp lie within the skew window (iat - skew ≤ now ≤ exp + skew) neither time
error is produced. -/
theorem c3_skew_window_amended
    (parseEnvelope : String → Option Envelope)
    (parsePayload : String → Option Payload)
    (verifySig : String → String → String → Bool) (now : Int) (token : String)
    (certs : List (String × String)) (audience : Audience)
    (issuers : Option (List String)) (maxExpiry : Int)
    (s0 s1 s2 pem : String) (env : Envelope) (p : Payload) (e i : Int)
    (hsplit : splitSegments token = [s0, s1, s2])
    (h0 : s0.isEmpty = false) (h1 : s1.isEmpty = false) (h2 : s2.isEmpty = false)
    (henv : parseEnvelope s0 = some env) (hp : parsePayload s1 = some p)
    (hkey : lookupCert certs env.kid = some pem)
    (hsig : verifySig pem (s0 ++ "." ++ s1) s2 = true)
    (hexp : p.exp = some e) (hiat : p.iat = some i) :
    (i - CLOCK_SKEW_SECS > now →
      verifySignedJwtWithCerts parseEnvelope parsePayload verifySig now token
        certs audience issuers maxExpiry = .error .tokenNotYetValid)
    ∧ (i - CLOCK_SKEW_SECS ≤ now → e + CLOCK_SKEW_SECS < now →
      verifySignedJwtWithCerts parseEnvelope parsePayload verifySig now token
        certs audience issuers maxExpiry = .error .tokenExpired)
    ∧ (i - CLOCK_SKEW_SECS ≤ now → now ≤ e + CLOCK_SKEW_SECS →
      verifySignedJwtWithCerts parseEnvelope parsePayload verifySig now token
          certs audience issuers maxExpiry ≠ .error .tokenNotYetValid
      ∧ verifySignedJwtWithCerts parseEnvelope parsePayload verifySig now token
          certs audience issuers maxExpiry ≠ .error .tokenExpired) := by
  rw [verify_claim_phase parseEnvelope parsePayload verifySig now token certs
      audience issuers maxExpiry s0 s1 s2 pem env p e i hsplit h0 h1 h2 henv
      hp hkey hsig hexp hiat]
  refine ⟨fun h => by rw [if_pos h], fun h1 h2 => ?_, fun h1 h2 => ?_⟩
  · rw [if_neg (by omega), if_pos h2]
  · rw [if_neg (by omega), if_neg (by omega)]
    constructor <;> split_ifs <;> simp

/-- Witness for C3 (amended): at now = 1000, a valid token with iat = 0 and
exp = 500 has exp + skew = 800 < 1000 and iat - skew ≤ now, and is rejected
with TokenExpired. -/
theorem c3_skew_window_amended_witness :
    verifySignedJwtWithCerts sampleParseEnvelope (sampleParsePayload 0 500)
        (fun _ _ _ => true) 1000 "env.pay.sig" [("keyid", "PEM")]
        (.single "testaudience") none 86400 = .error .tokenExpired :=
  (c3_skew_window_amended sampleParseEnvelope (sampleParsePayload 0 500)
    (fun _ _ _ => true) 1000 "env.pay.sig" [("keyid", "PEM")]
    (.single "testaudience") none 86400 "env" "pay" "sig" "PEM" sampleEnvelope
    (samplePayload 0 500) 500 0 (by decide) (by decide) (by decide)
    (by decide) rfl rfl rfl rfl rfl rfl).2.1 (by decide) (by decide)

/-- C8: for every input string that does not split on the dot into exactly
3 non-empty segments, `verifySignedJwtWithCerts` fails with the
MalformedToken wrong-number-of-segments error; the conclusion holds for
every certificate set, parser, signature verifier, clock and audience, so
no key lookup, signature verification or claim check can influence it. -/
theorem c8_segments_checked_first
    (parseEnvelope : String → Option Envelope)
    (parsePayload : String → Option Payload)
    (verifySig : String → String → String → Bool) (now : Int) (token : String)
    (certs : List (String × String)) (audience : Audience)
    (issuers : Option (List String)) (maxExpiry : Int)
    (h : wellSegmented token = false) :
    verifySignedJwtWithCerts parseEnvelope parsePayload verifySig now token
        certs audience issuers maxExpiry
      = .error (.malformedToken "Wrong number of segments") := by
  unfold wellSegmented at h
  unfold verifySignedJwtWithCerts
  rcases hs : splitSegments token with _ | ⟨a, _ | ⟨b, _ | ⟨c, _ | ⟨d, rest⟩⟩⟩⟩ <;>
    simp_all

/-- Witness for C8: the two-segment string "env.pay" is rejected with the
wrong-number-of-segments error. -/
theorem c8_segments_checked_first_witness :
    wellSegmented "env.pay" = false
      ∧ verifySignedJwtWithCerts sampleParseEnvelope (sampleParsePayload 0 100)
          (fun _ _ _ => true) 50 "env.pay" [("keyid", "PEM")]
          (.single "testaudience") none 86400
        = .error (.malformedToken "Wrong number of segments") :=
  ⟨by decide,
    c8_segments_checked_first sampleParseEnvelope (sampleParsePayload 0 100)
      (fun _ _ _ => true) 50 "env.pay" [("keyid", "PEM")]
      (.single "testaudience") none 86400 (by decide)⟩

/-- A concrete token endpoint for concrete evaluations: always answers
status 200 with access token "abc123" expiring in 1 second and no new
refresh token. -/
def sampleEndpoint : String → EndpointResponse :=
  fun _ => ⟨200, some ⟨"abc123", none, 1, none⟩⟩

/-- Helper: a refresh against an endpoint answering 2xx with a parsed body
succeeds and replaces the record wholesale, preserving the prior refresh
token when the response omits one. -/
theorem refresh_success (creds : Credentials)
    (endpoint : String → EndpointResponse) (now : Int) (rt : String)
    (b : TokenResponseBody) (hrt : creds.refresh_token = some rt)
    (hst : 200 ≤ (endpoint rt).status) (hst2 : (endpoint rt).status < 300)
    (hb : (endpoint rt).body = some b) :
    refresh creds endpoint now =
      ⟨.ok (),
        { access_token := some b.access_token
          refresh_token :=
            match b.refresh_token with
            | some nrt => some nrt
            | none => creds.refresh_token
          id_token := b.id_token
          expiry_date := some (now + b.expires_in * 1000)
          scope := creds.scope }⟩ := by
  unfold refresh
  rw [hrt]
  dsimp only
  rw [if_pos ⟨hst, hst2⟩, hb]

/-- C6: every failing refresh call (no refresh token set, non-2xx response,
or malformed response body) leaves the credential record exactly as it was
before the call: refresh is all-or-nothing. -/
theorem c6_refresh_all_or_nothing (creds : Credentials)
    (endpoint : String → EndpointResponse) (now : Int) (e : RefreshError)
    (h : (refresh creds endpoint now).result = Except.error e) :
    (refresh creds endpoint now).creds = creds := by
  unfold refresh at h ⊢
  rcases hrt : creds.refresh_token with _ | rt
  · rfl
  · rw [hrt] at h
    dsimp only at h ⊢
    by_cases hst : 200 ≤ (endpoint rt).status ∧ (endpoint rt).status < 300
    · rw [if_pos hst] at h ⊢
      rcases hb : (endpoint rt).body with _ | b
      · rfl
      · rw [hb] at h
        simp at h
    · rw [if_neg hst]

/-- Witness for C6: a refresh with no refresh token set fails and leaves a
concrete record (with an access token and expiry) unchanged. -/
theorem c6_refresh_all_or_nothing_witness :
    (refresh ⟨some "tok", none, none, some 99, none⟩ sampleEndpoint 0).creds
      = ⟨some "tok", none, none, some 99, none⟩ :=
  c6_refresh_all_or_nothing ⟨some "tok", none, none, some 99, none⟩
    sampleEndpoint 0 .noRefreshToken rfl

/-- C7: calling revokeCredentials with no access token present fails with
NoTokenToRevoke and issues zero network calls, yet it clears the credential
record to the empty record, so a previously stored refresh token is lost. -/
theorem c7_revoke_clears_on_error (creds : Credentials)
    (revokeEndpoint : String → Nat) (h : creds.access_token = none) :
    revokeCredentials creds revokeEndpoint
        = ⟨.error .noTokenToRevoke, emptyCredentials, []⟩
      ∧ (revokeCredentials creds revokeEndpoint).creds.refresh_token = none := by
  unfold revokeCredentials
  rw [h]
  exact ⟨rfl, rfl⟩

/-- Witness for C7: revoking with no access token but a stored refresh
token "abc" errors, makes no network call, and wipes the refresh token. -/
theorem c7_revoke_clears_on_error_witness :
    revokeCredentials ⟨none, some "abc", none, none, none⟩ (fun _ => 200)
        = ⟨.error .noTokenToRevoke, emptyCredentials, []⟩
      ∧ (revokeCredentials ⟨none, some "abc", none, none, none⟩
          (fun _ => 200)).creds.refresh_token = none :=
  c7_revoke_clears_on_error ⟨none, some "abc", none, none, none⟩
    (fun _ => 200) rfl

/-- C5: for an authorized request (valid cached token, refresh token
available, non-streaming body) whose first attempt returns 401 or 403,
exactly one refresh and exactly one resend occur — the trace is first send,
refresh, resend — and the second response, whatever its status (including a
second 401/403), is surfaced to the caller unmodified with no third
attempt. -/
theorem c5_single_retry_on_auth_failure
    (creds : Credentials) (a r : String) (b : TokenResponseBody)
    (now thresh : Int) (endpoint : String → EndpointResponse)
    (transport : Nat → Nat)
    (hacc : creds.access_token = some a)
    (hrt : creds.refresh_token = some r)
    (hfresh : isTokenExpiring creds now thresh = false)
    (h401 : transport 0 = 401 ∨ transport 0 = 403)
    (hst : 200 ≤ (endpoint r).status) (hst2 : (endpoint r).status < 300)
    (hb : (endpoint r).body = some b) :
    (request creds now thresh endpoint transport false).result
        = .ok (transport 1)
      ∧ (request creds now thresh endpoint transport false).calls
        = [.apiCall a, .refreshCall, .apiCall b.access_token] := by
  have hs := refresh_success creds endpoint now r b hrt hst hst2 hb
  have hcond : (transport 0 == 401 || transport 0 == 403) = true := by
    rcases h401 with h | h <;> simp [h]
  have h1 : request creds now thresh endpoint transport false
      = sendRequest creds now endpoint transport false := by
    unfold request
    rw [hacc, hrt, hfresh]
    simp
  have h2 : sendRequest creds now endpoint transport false
      = ⟨.ok (transport 1), (refresh creds endpoint now).creds,
          [.apiCall a, .refreshCall, .apiCall b.access_token]⟩ := by
    unfold sendRequest
    rw [hcond, hrt, hs]
    simp [hacc]
  rw [h1, h2]
  exact ⟨rfl, rfl⟩

/-- Witness for C5: a concrete request whose transport answers 401 on every
attempt performs send, refresh, resend, and surfaces the second 401. -/
theorem c5_single_retry_on_auth_failure_witness :
    (request ⟨some "initial", some "r", none, none, none⟩ 0 0 sampleEndpoint
        (fun _ => 401) false).result = .ok 401
      ∧ (request ⟨some "initial", some "r", none, none, none⟩ 0 0
          sampleEndpoint (fun _ => 401) false).calls
        = [.apiCall "initial", .refreshCall, .apiCall "abc123"] :=
  c5_single_retry_on_auth_failure ⟨some "initial", some "r", none, none, none⟩
    "initial" "r" ⟨"abc123", none, 1, none⟩ 0 0 sampleEndpoint (fun _ => 401)
    rfl rfl rfl (Or.inl rfl) (by decide) (by decide) rfl

/-- C9: an authorized request whose body is a non-replayable stream is
never retried: with a valid cached token, whatever status the transport
returns (including 401 and 403), the trace is a single send, the response
is propagated, and the credential record is untouched. -/
theorem c9_no_retry_for_streams
    (creds : Credentials) (a : String) (now thresh : Int)
    (endpoint : String → EndpointResponse) (transport : Nat → Nat)
    (hacc : creds.access_token = some a)
    (hfresh : isTokenExpiring creds now thresh = false) :
    request creds now thresh endpoint transport true
      = ⟨.ok (transport 0), creds, [.apiCall a]⟩ := by
  unfold request sendRequest
  rw [hacc, hfresh]
  simp

/-- Witness for C9: a streaming request answered with 401 is not retried:
one send, the 401 surfaced, credentials unchanged. -/
theorem c9_no_retry_for_streams_witness :
    request ⟨some "initial", some "refresh-token", none, none, none⟩ 0 0
        sampleEndpoint (fun _ => 401) true
      = ⟨.ok 401, ⟨some "initial", some "refresh-token", none, none, none⟩,
          [.apiCall "initial"]⟩ :=
  c9_no_retry_for_streams
    ⟨some "initial", some "refresh-token", none, none, none⟩ "initial" 0 0
    sampleEndpoint (fun _ => 401) rfl rfl

/-- C4: the cached token is treated as stale exactly when expiry_date is
present and now is at least expiry_date minus the eager-refresh threshold;
with threshold 5000, an expiry now + 3000 triggers a refresh before
sending while an expiry now + 10000 triggers none; and a record with no
expiry_date is assumed fresh, so its first network call is always the send
itself — no proactive refresh ever occurs for it, for any transport and
threshold. -/
theorem c4_staleness_threshold
    (creds cfresh : Credentials) (a af r : String) (b : TokenResponseBody)
    (now t : Int) (endpoint : String → EndpointResponse)
    (transport tr2 : Nat → Nat)
    (hst : 200 ≤ (endpoint r).status) (hst2 : (endpoint r).status < 300)
    (hb : (endpoint r).body = some b)
    (htr : (transport 0 == 401 || transport 0 == 403) = false)
    (hd : cfresh.expiry_date = none) (ha : cfresh.access_token = some af) :
    (isTokenExpiring creds now t = true
      ↔ ∃ d, creds.expiry_date = some d ∧ d - t ≤ now)
    ∧ (request ⟨some a, some r, none, some (now + 3000), none⟩ now 5000
        endpoint transport false).calls
      = [.refreshCall, .apiCall b.access_token]
    ∧ (request ⟨some a, some r, none, some (now + 10000), none⟩ now 5000
        endpoint transport false).calls = [.apiCall a]
    ∧ (request cfresh now t endpoint tr2 false).calls.head?
      = some (.apiCall af) := by
  refine ⟨?_, ?_, ?_, ?_⟩
  · cases hde : creds.expiry_date <;> simp [isTokenExpiring, hde]
  · have hexp2 : isTokenExpiring ⟨some a, some r, none, some (now + 3000), none⟩
        now 5000 = true := by
      simp only [isTokenExpiring]
      simp only [decide_eq_true_eq]
      omega
    have hs := refresh_success ⟨some a, some r, none, some (now + 3000), none⟩
      endpoint now r b rfl hst hst2 hb
    unfold request sendRequest
    simp [hexp2, hs, htr]
  · have hexp3 : isTokenExpiring ⟨some a, some r, none, some (now + 10000), none⟩
        now 5000 = false := by
      simp only [isTokenExpiring]
      simp only [decide_eq_false_iff_not]
      omega
    unfold request sendRequest
    simp [hexp3, htr]
  · have hfr : isTokenExpiring cfresh now t = false := by
      simp [isTokenExpiring, hd]
    have h1 : request cfresh now t endpoint tr2 false
        = sendRequest cfresh now endpoint tr2 false := by
      unfold request
      rw [ha, hfr]
      simp
    rw [h1]
    unfold sendRequest
    rw [ha]
    split
    · rcases refresh cfresh endpoint now with ⟨res, c2⟩
      rcases res with e | u <;> simp
    · simp

/-- Witness for C4: concrete instances of all four conjuncts, with a
transport answering 200 for the staleness scenarios and 401 for the
no-expiry record (whose first call is still the send). -/
theorem c4_staleness_threshold_witness :
    (isTokenExpiring ⟨none, none, none, some 7, none⟩ 0 0 = true
      ↔ ∃ d, (Credentials.mk none none none (some 7) none).expiry_date
          = some d ∧ d - 0 ≤ 0)
    ∧ (request ⟨some "initial", some "r", none, some ((0 : Int) + 3000), none⟩
        0 5000 sampleEndpoint (fun _ => 200) false).calls
      = [.refreshCall, .apiCall "abc123"]
    ∧ (request ⟨some "initial", some "r", none, some ((0 : Int) + 10000), none⟩
        0 5000 sampleEndpoint (fun _ => 200) false).calls
      = [.apiCall "initial"]
    ∧ (request ⟨some "x", some "r2", none, none, none⟩ 0 0 sampleEndpoint
        (fun _ => 401) false).calls.head? = some (.apiCall "x") :=
  c4_staleness_threshold ⟨none, none, none, some 7, none⟩
    ⟨some "x", some "r2", none, none, none⟩ "initial" "x" "r"
    ⟨"abc123", none, 1, none⟩ 0 0 sampleEndpoint (fun _ => 200)
    (fun _ => 401) (by decide) (by decide) rfl (by decide) rfl rfl

/-- C10: starting from the empty cache, a fetch whose response carries
max-age m makes the set valid until t0 + m: a second getCertificates call
at any t1 < t0 + m returns the cached set with zero network fetches, so two
calls within the cached lifetime issue exactly one fetch in total; and when
the response carries no max-age directive the stored set is immediately
stale, so a second call at any time refetches. -/
theorem c10_cert_cache_single_fetch
    (t0 t1 t2 t3 : Int) (f g : Int → CertFetchResponse)
    (body bodyg : List (String × String)) (m : Int)
    (hf : f t0 = ⟨body, some m⟩) (hwithin : t1 < t0 + m)
    (hg : g t2 = ⟨bodyg, none⟩) :
    ((getCertificates emptyCertificateSet t0 f).fetches = 1
      ∧ getCertificates (getCertificates emptyCertificateSet t0 f).cache t1 f
        = ⟨body, (getCertificates emptyCertificateSet t0 f).cache, 0⟩)
    ∧ ((getCertificates emptyCertificateSet t2 g).fetches = 1
      ∧ (getCertificates (getCertificates emptyCertificateSet t2 g).cache t3
          g).fetches = 1) := by
  have h1 : getCertificates emptyCertificateSet t0 f
      = ⟨body, ⟨body, some (t0 + m)⟩, 1⟩ := by
    simp [getCertificates, emptyCertificateSet, hf]
  have h2 : getCertificates emptyCertificateSet t2 g
      = ⟨bodyg, ⟨bodyg, none⟩, 1⟩ := by
    simp [getCertificates, emptyCertificateSet, hg]
  refine ⟨⟨by rw [h1], ?_⟩, by rw [h2], ?_⟩
  · rw [h1]
    simp [getCertificates, if_pos hwithin]
  · rw [h2]
    simp [getCertificates]

/-- Witness for C10: a concrete fetch with max-age 100 at time 0 is not
repeated at time 50, and a concrete fetch without max-age is repeated. -/
theorem c10_cert_cache_single_fetch_witness :
    ((getCertificates emptyCertificateSet 0
        (fun _ => ⟨[("a", "pemA")], some 100⟩)).fetches = 1
      ∧ getCertificates
          (getCertificates emptyCertificateSet 0
            (fun _ => ⟨[("a", "pemA")], some 100⟩)).cache 50
          (fun _ => ⟨[("a", "pemA")], some 100⟩)
        = ⟨[("a", "pemA")],
            (getCertificates emptyCertificateSet 0
              (fun _ => ⟨[("a", "pemA")], some 100⟩)).cache, 0⟩)
    ∧ ((getCertificates emptyCertificateSet 0
        (fun _ => ⟨[("b", "pemB")], none⟩)).fetches = 1
      ∧ (getCertificates
          (getCertificates emptyCertificateSet 0
            (fun _ => ⟨[("b", "pemB")], none⟩)).cache 999
          (fun _ => ⟨[("b", "pemB")], none⟩)).fetches = 1) :=
  c10_cert_cache_single_fetch 0 50 0 999
    (fun _ => ⟨[("a", "pemA")], some 100⟩) (fun _ => ⟨[("b", "pemB")], none⟩)
    [("a", "pemA")] [("b", "pemB")] 100 rfl (by decide) rfl

end OAuth2
